import Mathlib

/-!
Shallow embedding of the chat route of the ArkWork backend
(`src/routes/chat.ts`): request validation (Zod `AskSchema`), text
clamping, conversation-history windowing, and the POST handler's
response mapping, together with theorems about their behaviour.

Strings are modelled through their character lists (`String.data`);
`strTrim` models JavaScript `String.prototype.trim` on the common ASCII
whitespace characters.
-/

/-- An inbound chat message (source type `MsgIn`): a role and a content string. -/
structure MsgIn where
  role : String
  content : String
deriving DecidableEq

/-- ASCII whitespace recognised by the trim model. -/
def isWsChar (c : Char) : Bool :=
  c = ' ' || c = '\t' || c = '\n' || c = '\r'

/-- Drop leading and trailing whitespace from a character list. -/
def trimChars (l : List Char) : List Char :=
  ((l.dropWhile isWsChar).reverse.dropWhile isWsChar).reverse

/-- Model of JavaScript `s.trim()`. -/
def strTrim (s : String) : String := ⟨trimChars s.data⟩

/-- Model of JavaScript `s.length` (character count). -/
def strLen (s : String) : Nat := s.data.length

/-- Model of JavaScript `s.slice(0, n)` for `n ≥ 0`: the first `n` characters. -/
def strTake (s : String) (n : Nat) : String := ⟨s.data.take n⟩

/-- Source `clampText`: `if (!s) return ''; return s.length > max ? s.slice(0, max) : s;`. -/
def clampText (s : String) (max : Nat := 4000) : String :=
  if s = "" then "" else if strLen s > max then strTake s max else s

/-- A provider-facing conversation turn (`{ role, parts: [{ text }] }`,
with the single-element `parts` array flattened to its text). -/
structure Turn where
  role : String
  text : String
deriving DecidableEq

/-- The per-message mapping inside `toGeminiHistory`: role `"assistant"`
becomes `"model"`, anything else `"user"`; content is clamped to 4000. -/
def turnOf (m : MsgIn) : Turn :=
  ⟨if m.role = "assistant" then "model" else "user", clampText m.content 4000⟩

/-- Model of JavaScript `l.slice(-keep)` for `keep ≥ 1`: the last `keep` elements. -/
def jsSliceLast (keep : Nat) (l : List α) : List α :=
  l.drop (l.length - keep)

/-- Source `toGeminiHistory`: keep the last `keep` messages, drop those with
whitespace-only content, and map each to a provider turn. -/
def toGeminiHistory (messages : List MsgIn) (keep : Nat := 6) : List Turn :=
  ((jsSliceLast keep messages).filter (fun m => strTrim m.content != "")).map turnOf

/-- The history window the handler builds at the provider call:
`toGeminiHistory(messages.slice(0, -1), 6)`. -/
def historyWindowOf (messages : List MsgIn) : List Turn :=
  toGeminiHistory messages.dropLast 6

/-- A concrete validated-shape message list: eight messages, the seventh
(the sixth-from-last of the prior turns) whitespace-only. -/
def msgsWithWsInWindow : List MsgIn :=
  [⟨"user", "m1"⟩, ⟨"user", "m2"⟩, ⟨"assistant", "m3"⟩, ⟨"user", "m4"⟩,
   ⟨"user", "m5"⟩, ⟨"user", "m6"⟩, ⟨"user", " "⟩, ⟨"user", "final"⟩]

/-- A JSON value, as delivered by the body parser to the route handler. -/
inductive Json where
  | null : Json
  | bool (b : Bool) : Json
  | num (q : Rat) : Json
  | str (s : String) : Json
  | arr (elems : List Json) : Json
  | obj (fields : List (String × Json)) : Json

/-- One element of a Zod issue path: an object key or an array index. -/
inductive PathElem where
  | field (s : String) : PathElem
  | index (n : Nat) : PathElem
deriving DecidableEq

/-- A single Zod validation issue: the path of the violated field and a message. -/
structure Issue where
  path : List PathElem
  msg : String
deriving DecidableEq

/-- Key lookup in a parsed JSON object (parsed objects have unique keys). -/
def lookupField : List (String × Json) → String → Option Json
  | [], _ => none
  | (k, v) :: rest, key => if k = key then some v else lookupField rest key

/-- Property access `j[key]` on a JSON value; `none` off objects. -/
def getField (j : Json) (key : String) : Option Json :=
  match j with
  | .obj fs => lookupField fs key
  | _ => none

/-- The issues carried by a failed parse (empty for a successful one). -/
def errsOf : Except (List Issue) α → List Issue
  | .error e => e
  | .ok _ => []

/-- Zod `z.string().default('user')` at `messages[i].role`. -/
def roleRes (i : Nat) : Option Json → Except (List Issue) String
  | none => .ok "user"
  | some (.str s) => .ok s
  | some _ => .error [⟨[.field "messages", .index i, .field "role"], "Expected string"⟩]

/-- Zod `z.string().min(1)` at `messages[i].content`. -/
def contentRes (i : Nat) : Option Json → Except (List Issue) String
  | none => .error [⟨[.field "messages", .index i, .field "content"], "Required"⟩]
  | some (.str s) =>
      if 1 ≤ strLen s then .ok s
      else .error [⟨[.field "messages", .index i, .field "content"],
        "String must contain at least 1 character"⟩]
  | some _ => .error [⟨[.field "messages", .index i, .field "content"], "Expected string"⟩]

/-- Combine the two field results of `MsgSchema`, collecting all issues. -/
def combineMsg (ra rb : Except (List Issue) String) : Except (List Issue) MsgIn :=
  match ra, rb with
  | .ok r, .ok c => .ok ⟨r, c⟩
  | a, b => .error (errsOf a ++ errsOf b)

/-- Zod `MsgSchema` applied to `messages[i]`. -/
def parseMsg (i : Nat) (j : Json) : Except (List Issue) MsgIn :=
  match j with
  | .obj fs =>
      combineMsg (roleRes i (lookupField fs "role")) (contentRes i (lookupField fs "content"))
  | _ => .error [⟨[.field "messages", .index i], "Expected object"⟩]

/-- `MsgSchema` applied elementwise, tracking array indices from `i`. -/
def parseMsgElems (i : Nat) : List Json → List (Except (List Issue) MsgIn)
  | [] => []
  | x :: xs => parseMsg i x :: parseMsgElems (i + 1) xs

/-- All issues of `z.array(MsgSchema).min(1)` on an array body field. -/
def msgsErrs (xs : List Json) : List Issue :=
  ((parseMsgElems 0 xs).map errsOf).flatten ++
    (if xs.length < 1 then [⟨[.field "messages"], "Array must contain at least 1 element"⟩]
     else [])

/-- Result of `z.array(MsgSchema).min(1)` on an array value. -/
def messagesResult (xs : List Json) : Except (List Issue) (List MsgIn) :=
  if msgsErrs xs = [] then .ok ((parseMsgElems 0 xs).filterMap Except.toOption)
  else .error (msgsErrs xs)

/-- Zod `z.array(MsgSchema).min(1)` at the (required) `messages` key. -/
def parseMessages : Option Json → Except (List Issue) (List MsgIn)
  | none => .error [⟨[.field "messages"], "Required"⟩]
  | some (.arr xs) => messagesResult xs
  | some _ => .error [⟨[.field "messages"], "Expected array"⟩]

/-- Zod `z.enum(['news', 'jobs', 'consult']).default('news')` at `intent`. -/
def parseIntent : Option Json → Except (List Issue) String
  | none => .ok "news"
  | some (.str s) =>
      if s = "news" ∨ s = "jobs" ∨ s = "consult" then .ok s
      else .error [⟨[.field "intent"], "Invalid enum value"⟩]
  | some _ => .error [⟨[.field "intent"], "Expected string"⟩]

/-- The validated optional profile (all fields optional, extras ignored). -/
structure Profile where
  name : Option String
  role : Option String
  skills : Option String
  location : Option String
  experienceYears : Option Rat
  interests : Option String
deriving DecidableEq

/-- Zod `z.string().optional()` at `profile.<key>`. -/
def profStr (key : String) (fs : List (String × Json)) :
    Except (List Issue) (Option String) :=
  match lookupField fs key with
  | none => .ok none
  | some (.str s) => .ok (some s)
  | some _ => .error [⟨[.field "profile", .field key], "Expected string"⟩]

/-- Zod `z.number().optional()` at `profile.experienceYears`. -/
def profNum (key : String) (fs : List (String × Json)) :
    Except (List Issue) (Option Rat) :=
  match lookupField fs key with
  | none => .ok none
  | some (.num q) => .ok (some q)
  | some _ => .error [⟨[.field "profile", .field key], "Expected number"⟩]

/-- Combine the six optional field results of the profile object schema. -/
def combineProfile (rn rr rs rl : Except (List Issue) (Option String))
    (re : Except (List Issue) (Option Rat))
    (ri : Except (List Issue) (Option String)) :
    Except (List Issue) (Option Profile) :=
  match rn, rr, rs, rl, re, ri with
  | .ok n, .ok r, .ok s, .ok l, .ok e, .ok i => .ok (some ⟨n, r, s, l, e, i⟩)
  | _, _, _, _, _, _ =>
      .error (errsOf rn ++ errsOf rr ++ errsOf rs ++ errsOf rl ++ errsOf re ++ errsOf ri)

/-- Zod optional profile object schema at the `profile` key. -/
def parseProfile : Option Json → Except (List Issue) (Option Profile)
  | none => .ok none
  | some (.obj fs) =>
      combineProfile (profStr "name" fs) (profStr "role" fs) (profStr "skills" fs)
        (profStr "location" fs) (profNum "experienceYears" fs) (profStr "interests" fs)
  | some _ => .error [⟨[.field "profile"], "Expected object"⟩]

/-- The issues of `z.number().int().min(64).max(2048)` on a number. -/
def maxTokIssues (q : Rat) : List Issue :=
  (if q.den = 1 then [] else [⟨[.field "maxOutputTokens"], "Expected integer"⟩]) ++
  (if q < 64 then [⟨[.field "maxOutputTokens"],
      "Number must be greater than or equal to 64"⟩] else []) ++
  (if 2048 < q then [⟨[.field "maxOutputTokens"],
      "Number must be less than or equal to 2048"⟩] else [])

/-- Zod `z.number().int().min(64).max(2048).optional()` at `maxOutputTokens`. -/
def parseMaxTokens : Option Json → Except (List Issue) (Option Rat)
  | none => .ok none
  | some (.num q) => if maxTokIssues q = [] then .ok (some q) else .error (maxTokIssues q)
  | some _ => .error [⟨[.field "maxOutputTokens"], "Expected number"⟩]

/-- The issues of `z.number().min(0).max(1)` on a number. -/
def tempIssues (q : Rat) : List Issue :=
  (if q < 0 then [⟨[.field "temperature"],
      "Number must be greater than or equal to 0"⟩] else []) ++
  (if 1 < q then [⟨[.field "temperature"],
      "Number must be less than or equal to 1"⟩] else [])

/-- Zod `z.number().min(0).max(1).optional()` at `temperature`. -/
def parseTemperature : Option Json → Except (List Issue) (Option Rat)
  | none => .ok none
  | some (.num q) => if tempIssues q = [] then .ok (some q) else .error (tempIssues q)
  | some _ => .error [⟨[.field "temperature"], "Expected number"⟩]

/-- A validated chat request (the output of `AskSchema`). -/
structure Ask where
  messages : List MsgIn
  intent : String
  profile : Option Profile
  maxOutputTokens : Option Rat
  temperature : Option Rat
deriving DecidableEq

/-- Combine the five top-level field results of `AskSchema`, collecting all
issues when any field fails (Zod reports every violated field). -/
def combineAsk (rm : Except (List Issue) (List MsgIn))
    (ri : Except (List Issue) String)
    (rp : Except (List Issue) (Option Profile))
    (rx rt : Except (List Issue) (Option Rat)) : Except (List Issue) Ask :=
  match rm, ri, rp, rx, rt with
  | .ok ms, .ok it, .ok pf, .ok mx, .ok tp => .ok ⟨ms, it, pf, mx, tp⟩
  | _, _, _, _, _ =>
      .error (errsOf rm ++ errsOf ri ++ errsOf rp ++ errsOf rx ++ errsOf rt)

/-- Zod `AskSchema.safeParse` on the request body. -/
def parseAsk (j : Json) : Except (List Issue) Ask :=
  match j with
  | .obj fs =>
      combineAsk (parseMessages (lookupField fs "messages"))
        (parseIntent (lookupField fs "intent"))
        (parseProfile (lookupField fs "profile"))
        (parseMaxTokens (lookupField fs "maxOutputTokens"))
        (parseTemperature (lookupField fs "temperature"))
  | _ => .error [⟨[], "Expected object"⟩]

/-- A thrown provider error, as the catch block inspects it: the optional
`code`, `status` and `message` fields are read, while `name` and `stack`
exist on the error but are never placed in the response body. -/
structure GError where
  code : Option Json
  status : Option Json
  message : Option String
  name : Option String
  stack : Option String

/-- JavaScript truthiness of a JSON value. -/
def jsTruthy : Json → Bool
  | .null => false
  | .bool b => b
  | .num q => q != 0
  | .str s => s != ""
  | .arr _ => true
  | .obj _ => true

/-- `err?.code || err?.status`: the `code` value when truthy, otherwise the
`status` value (which may itself be absent). -/
def codeVal (e : GError) : Option Json :=
  match e.code with
  | some c => if jsTruthy c then some c else e.status
  | none => e.status

/-- `v || fallback` for an optional string (JS: the empty string is falsy). -/
def jsOrStr (v : Option String) (fallback : String) : String :=
  match v with
  | some s => if s = "" then fallback else s
  | none => fallback

/-- The catch block's 502 body: `error`, the optional `code` (omitted from
the serialized JSON when `err?.code || err?.status` is `undefined`), and
`message` with its fixed fallback. -/
def aiErrorFields (e : GError) : List (String × Json) :=
  [("error", .str "AI_ERROR")] ++
  (match codeVal e with
   | some v => [("code", v)]
   | none => []) ++
  [("message", .str (jsOrStr e.message "Gagal meminta jawaban dari AI."))]

/-- Modelled from the claim's wording, for comparison with the code: the
response `code` is taken from the error's `code` field, or from its
`status` field when `code` is absent. -/
def claimCodeVal (e : GError) : Option Json :=
  match e.code with
  | some c => some c
  | none => e.status

/-- The canned greeting returned when the final message is blank. -/
def greetingText : String :=
  "Halo! Saya ArkWork Agent. Saya bisa bantu ringkas berita migas, rekomendasi kerja, dan konsultasi langkah praktis. Coba: \"Berita LNG Indonesia terbaru dalam 3 poin.\""

/-- `messages[messages.length - 1]?.content || ''`. -/
def lastUserText (msgs : List MsgIn) : String :=
  match msgs.getLast? with
  | some m => m.content
  | none => ""

/-- An HTTP response: status code and JSON body. -/
structure HttpResp where
  status : Nat
  body : Json

/-- The `details` payload of a 400 response: the issues of `safeParse`
(the source's `error.format()` regroups the same issues per field path). -/
def issuesJson (issues : List Issue) : Json :=
  .arr (issues.map (fun ι => .obj
    [("path", .arr (ι.path.map (fun
        | .field s => Json.str s
        | .index n => Json.num n))),
     ("message", .str ι.msg)]))

/-- The server configuration read at startup. -/
structure Config where
  apiKey : String
  model : String

/-- The POST chat handler (`router.post('/')`). `provider` is the outcome
of the single `chat.sendMessage` call if one is made: the generated text
(already defaulted to `''` by `result.response?.text?.() || ''`) or the
thrown error. The second component records whether the provider was
invoked. -/
def postChat (cfg : Config) (body : Json) (provider : Except GError String) :
    HttpResp × Bool :=
  if cfg.apiKey = "" then
    (⟨503, .obj [("error", .str "GEMINI_API_KEY_MISSING"),
      ("message", .str "Server AI belum dikonfigurasi. Hubungi admin.")]⟩, false)
  else
    match parseAsk body with
    | .error issues =>
        (⟨400, .obj [("error", .str "BAD_REQUEST"), ("details", issuesJson issues)]⟩, false)
    | .ok ask =>
        if strTrim (lastUserText ask.messages) = "" then
          (⟨200, .obj [("answer", .str greetingText)]⟩, false)
        else
          match provider with
          | .error e => (⟨502, .obj (aiErrorFields e)⟩, true)
          | .ok text =>
              if strTrim text = "" then
                (⟨502, .obj [("error", .str "EMPTY_RESPONSE"),
                  ("message", .str "AI tidak mengembalikan teks.")]⟩, true)
              else (⟨200, .obj [("answer", .str (strTrim text))]⟩, true)

/-- Schema violation: `messages` missing or an empty array. -/
def violMessages (j : Json) : Prop :=
  getField j "messages" = none ∨ getField j "messages" = some (.arr [])

/-- Schema violation: the `k`-th message has content of length zero. -/
def contentZeroAt (j : Json) (k : Nat) : Prop :=
  ∃ xs gs, getField j "messages" = some (.arr xs) ∧ xs[k]? = some (.obj gs) ∧
    lookupField gs "content" = some (.str "")

/-- Schema violation: `intent` present but not one of the three modes. -/
def violIntent (j : Json) : Prop :=
  ∃ v, getField j "intent" = some v ∧
    ∀ s, v = .str s → ¬(s = "news" ∨ s = "jobs" ∨ s = "consult")

/-- Schema violation: `maxOutputTokens` present but not an integer in [64, 2048]. -/
def violMaxTok (j : Json) : Prop :=
  ∃ v, getField j "maxOutputTokens" = some v ∧
    ∀ q, v = .num q → ¬(q.den = 1 ∧ 64 ≤ q ∧ q ≤ 2048)

/-- Schema violation: `temperature` present but not a number in [0, 1]. -/
def violTemp (j : Json) : Prop :=
  ∃ v, getField j "temperature" = some v ∧ ∀ q, v = .num q → ¬(0 ≤ q ∧ q ≤ 1)

/-- The minimal well-formed request body `{ messages: [{role: "user", content: "hello"}] }`. -/
def minimalBody : Json :=
  .obj [("messages", .arr [.obj [("role", .str "user"), ("content", .str "hello")]])]

/-- Its validated form. -/
def minimalAsk : Ask := ⟨[⟨"user", "hello"⟩], "news", none, none, none⟩

/-- If some element of a list fails the filter predicate, filtering
strictly shrinks the list. -/
theorem length_filter_lt_of_mem {p : α → Bool} {l : List α} {a : α}
    (ha : a ∈ l) (hpa : p a = false) : (l.filter p).length < l.length := by
  induction l with
  | nil => cases ha
  | cons x xs ih =>
    rcases List.mem_cons.mp ha with h | h
    · subst h
      simp only [List.filter_cons, hpa, Bool.false_eq_true, if_false, List.length_cons]
      exact Nat.lt_succ_of_le (List.length_filter_le p xs)
    · by_cases hx : p x
      · simp only [List.filter_cons, hx, if_true, List.length_cons]
        exact Nat.succ_lt_succ (ih h)
      · simp only [List.filter_cons, Bool.not_eq_true] at hx ⊢
        simp only [hx, Bool.false_eq_true, if_false, List.length_cons]
        exact Nat.lt_succ_of_lt (ih h)

/-- C3: `clampText` returns strings of at most 4000 characters unchanged,
and returns exactly the first 4000 characters of longer strings. -/
theorem clampText_spec (s : String) :
    (strLen s ≤ 4000 → clampText s 4000 = s) ∧
    (strLen s > 4000 → clampText s 4000 = strTake s 4000) := by
  constructor
  · intro h
    by_cases hs : s = ""
    · subst hs; rfl
    · simp only [clampText, if_neg hs, gt_iff_lt]
      rw [if_neg (by omega)]
  · intro h
    have hs : s ≠ "" := by
      intro hs; subst hs
      exact absurd h (by decide)
    simp only [clampText, if_neg hs, gt_iff_lt]
    rw [if_pos (by omega)]

/-- C3 witness: a short string passes through unchanged and a 4001-character
string is cut to its 4000-character prefix. -/
theorem clampText_spec_witness :
    (strLen "abc" ≤ 4000 ∧ clampText "abc" 4000 = "abc") ∧
    (strLen (String.mk (List.replicate 4001 'a')) > 4000 ∧
      clampText (String.mk (List.replicate 4001 'a')) 4000 =
        strTake (String.mk (List.replicate 4001 'a')) 4000) := by
  have h1 : strLen "abc" ≤ 4000 := by decide
  have h2 : strLen (String.mk (List.replicate 4001 'a')) > 4000 := by
    show 4000 < (List.replicate 4001 'a').length
    rw [List.length_replicate]
    omega
  exact ⟨⟨h1, (clampText_spec "abc").1 h1⟩, ⟨h2, (clampText_spec _).2 h2⟩⟩


/-- C2 counterexample: a request with more than 6 messages preceding the
final one whose forwarded history is NOT the role-mapped image of the last
6 prior messages — the whitespace-only entry is dropped. -/
theorem history_window_not_last6_counterexample :
    6 < msgsWithWsInWindow.dropLast.length ∧
    historyWindowOf msgsWithWsInWindow ≠
      (jsSliceLast 6 msgsWithWsInWindow.dropLast).map turnOf := by
  decide

/-- C2 (amended): when more than 6 messages precede the final one and none
of the last 6 prior messages is whitespace-only, the forwarded history is
exactly those 6 messages in order, each mapped to a provider turn
(role `"assistant" → "model"`, else `"user"`, content clamped to 4000). -/
theorem history_window_last6 (msgs : List MsgIn)
    (hlen : 6 < msgs.dropLast.length)
    (hnw : ∀ m ∈ jsSliceLast 6 msgs.dropLast, strTrim m.content ≠ "") :
    historyWindowOf msgs = (jsSliceLast 6 msgs.dropLast).map turnOf ∧
    (historyWindowOf msgs).length = 6 := by
  have hf : (jsSliceLast 6 msgs.dropLast).filter (fun m => strTrim m.content != "") =
      jsSliceLast 6 msgs.dropLast := by
    apply List.filter_eq_self.mpr
    intro m hm
    simpa using hnw m hm
  have heq : historyWindowOf msgs = (jsSliceLast 6 msgs.dropLast).map turnOf := by
    simp [historyWindowOf, toGeminiHistory, hf]
  refine ⟨heq, ?_⟩
  rw [heq]
  simp only [List.length_map, jsSliceLast, List.length_drop]
  omega

/-- C2 witness: eight all-substantive messages; the forwarded window is the
mapped last six prior ones. -/
theorem history_window_last6_witness :
    historyWindowOf
        [⟨"user", "m1"⟩, ⟨"user", "m2"⟩, ⟨"assistant", "m3"⟩, ⟨"user", "m4"⟩,
         ⟨"user", "m5"⟩, ⟨"user", "m6"⟩, ⟨"user", "m7"⟩, ⟨"user", "final"⟩] =
      (jsSliceLast 6
        (([⟨"user", "m1"⟩, ⟨"user", "m2"⟩, ⟨"assistant", "m3"⟩, ⟨"user", "m4"⟩,
           ⟨"user", "m5"⟩, ⟨"user", "m6"⟩, ⟨"user", "m7"⟩, ⟨"user", "final"⟩] :
            List MsgIn).dropLast)).map turnOf ∧
    (historyWindowOf
        [⟨"user", "m1"⟩, ⟨"user", "m2"⟩, ⟨"assistant", "m3"⟩, ⟨"user", "m4"⟩,
         ⟨"user", "m5"⟩, ⟨"user", "m6"⟩, ⟨"user", "m7"⟩, ⟨"user", "final"⟩]).length = 6 :=
  history_window_last6 _ (by decide) (by decide)

/-- C9: the window slices first and filters afterwards — a whitespace-only
entry among the last 6 prior messages makes the forwarded history strictly
shorter than 6, and every forwarded turn still comes from those last 6. -/
theorem history_window_filter_after_slice (msgs : List MsgIn)
    (h : ∃ m ∈ jsSliceLast 6 msgs.dropLast, strTrim m.content = "") :
    (historyWindowOf msgs).length < 6 ∧
    ∀ t ∈ historyWindowOf msgs, ∃ m ∈ jsSliceLast 6 msgs.dropLast, turnOf m = t := by
  obtain ⟨m, hm, hws⟩ := h
  constructor
  · have h1 : ((jsSliceLast 6 msgs.dropLast).filter
        (fun m => strTrim m.content != "")).length <
        (jsSliceLast 6 msgs.dropLast).length :=
      length_filter_lt_of_mem hm (by simp [hws])
    have h2 : (jsSliceLast 6 msgs.dropLast).length ≤ 6 := by
      simp only [jsSliceLast, List.length_drop]
      omega
    simp only [historyWindowOf, toGeminiHistory, List.length_map]
    omega
  · intro t ht
    simp only [historyWindowOf, toGeminiHistory, List.mem_map] at ht
    obtain ⟨m', hm', rfl⟩ := ht
    exact ⟨m', List.mem_of_mem_filter hm', rfl⟩

/-- C9 witness: with a whitespace-only entry in the window, the forwarded
history has fewer than 6 turns and each turn comes from the window. -/
theorem history_window_filter_after_slice_witness :
    (historyWindowOf msgsWithWsInWindow).length < 6 ∧
    ∀ t ∈ historyWindowOf msgsWithWsInWindow,
      ∃ m ∈ jsSliceLast 6 msgsWithWsInWindow.dropLast, turnOf m = t :=
  history_window_filter_after_slice _ ⟨⟨"user", " "⟩, by decide, by decide⟩

/-- Membership in `if c then [] else [x]` forces equality with `x`. -/
theorem mem_ite_nil_left {c : Prop} [Decidable c] {x ι : α}
    (h : ι ∈ if c then ([] : List α) else [x]) : ι = x := by
  split at h
  · cases h
  · simpa using h

/-- Membership in `if c then [x] else []` forces equality with `x`. -/
theorem mem_ite_nil_right {c : Prop} [Decidable c] {x ι : α}
    (h : ι ∈ if c then [x] else ([] : List α)) : ι = x := by
  split at h
  · simpa using h
  · cases h

/-- Indexing into the elementwise parse: the `k`-th result is the parse of
the `k`-th element at index `i + k`. -/
theorem parseMsgElems_getElem? (xs : List Json) :
    ∀ (i k : Nat) (e : Json), xs[k]? = some e →
      (parseMsgElems i xs)[k]? = some (parseMsg (i + k) e) := by
  induction xs with
  | nil => intro i k e h; simp at h
  | cons x t ih =>
    intro i k e h
    cases k with
    | zero =>
      simp only [List.getElem?_cons_zero, Option.some.injEq] at h
      subst h
      simp [parseMsgElems]
    | succ k =>
      simp only [List.getElem?_cons_succ] at h
      simp only [parseMsgElems, List.getElem?_cons_succ]
      rw [show i + (k + 1) = i + 1 + k by omega]
      exact ih (i + 1) k e h

/-- A failing content check makes the whole message parse fail, keeping the
content issues after any role issues. -/
theorem combineMsg_content_err (ra : Except (List Issue) String) (L : List Issue) :
    combineMsg ra (.error L) = .error (errsOf ra ++ L) := by
  cases ra <;> rfl

/-- A zero-length content at index `k` of the `messages` array puts the
corresponding per-element issue into the array parse's error. -/
theorem messagesResult_content_issue (xs : List Json) (k : Nat)
    (gs : List (String × Json))
    (hk : xs[k]? = some (.obj gs)) (hc : lookupField gs "content" = some (.str "")) :
    ∃ L, messagesResult xs = .error L ∧
      (⟨[.field "messages", .index k, .field "content"],
        "String must contain at least 1 character"⟩ : Issue) ∈ L := by
  have hcr : contentRes k (lookupField gs "content") =
      .error [⟨[.field "messages", .index k, .field "content"],
        "String must contain at least 1 character"⟩] := by
    rw [hc]; rfl
  have hpm : parseMsg k (.obj gs) =
      .error (errsOf (roleRes k (lookupField gs "role")) ++
        [⟨[.field "messages", .index k, .field "content"],
          "String must contain at least 1 character"⟩]) := by
    show combineMsg (roleRes k (lookupField gs "role"))
      (contentRes k (lookupField gs "content")) = _
    rw [hcr]
    exact combineMsg_content_err _ _
  have hget : (parseMsgElems 0 xs)[k]? = some (parseMsg k (.obj gs)) := by
    have h := parseMsgElems_getElem? xs 0 k _ hk
    rwa [Nat.zero_add] at h
  have hmem : parseMsg k (.obj gs) ∈ parseMsgElems 0 xs := List.getElem?_mem hget
  have hmem2 : errsOf (parseMsg k (.obj gs)) ∈ (parseMsgElems 0 xs).map errsOf :=
    List.mem_map_of_mem _ hmem
  have hι : (⟨[.field "messages", .index k, .field "content"],
      "String must contain at least 1 character"⟩ : Issue) ∈
      ((parseMsgElems 0 xs).map errsOf).flatten := by
    apply List.mem_flatten.mpr
    refine ⟨errsOf (parseMsg k (.obj gs)), hmem2, ?_⟩
    rw [hpm]
    simp [errsOf]
  have hιe : (⟨[.field "messages", .index k, .field "content"],
      "String must contain at least 1 character"⟩ : Issue) ∈ msgsErrs xs := by
    simp only [msgsErrs]
    exact List.mem_append_left _ hι
  have hne : msgsErrs xs ≠ [] := List.ne_nil_of_mem hιe
  exact ⟨msgsErrs xs, by simp only [messagesResult, if_neg hne], hιe⟩

/-- A missing or empty `messages` field fails the array parse with an issue
at path `messages`. -/
theorem parseMessages_viol (fs : List (String × Json))
    (h : violMessages (.obj fs)) :
    ∃ L, parseMessages (lookupField fs "messages") = .error L ∧
      ∃ ι ∈ L, ι.path = [.field "messages"] := by
  rcases h with h | h <;> simp only [getField] at h <;> rw [h]
  · exact ⟨_, rfl, ⟨[.field "messages"], "Required"⟩, by simp, rfl⟩
  · have hempty : parseMessages (some (.arr [])) =
        .error [⟨[.field "messages"], "Array must contain at least 1 element"⟩] := by
      rfl
    exact ⟨_, hempty, ⟨[.field "messages"], "Array must contain at least 1 element"⟩,
      by simp, rfl⟩

/-- A zero-length message content fails the array parse with an issue at
path `messages.k.content`. -/
theorem parseMessages_viol_content (fs : List (String × Json)) (k : Nat)
    (h : contentZeroAt (.obj fs) k) :
    ∃ L, parseMessages (lookupField fs "messages") = .error L ∧
      ∃ ι ∈ L, ι.path = [.field "messages", .index k, .field "content"] := by
  obtain ⟨xs, gs, hmsgs, hk, hc⟩ := h
  simp only [getField] at hmsgs
  rw [hmsgs]
  obtain ⟨L, hL, hι⟩ := messagesResult_content_issue xs k gs hk hc
  exact ⟨L, hL, _, hι, rfl⟩

/-- An out-of-enum `intent` fails its parse with an issue at path `intent`. -/
theorem parseIntent_viol (v : Json)
    (hv : ∀ s, v = .str s → ¬(s = "news" ∨ s = "jobs" ∨ s = "consult")) :
    ∃ L, parseIntent (some v) = .error L ∧ ∃ ι ∈ L, ι.path = [.field "intent"] := by
  cases v with
  | str s =>
    have hs := hv s rfl
    have heq : parseIntent (some (.str s)) =
        .error [⟨[.field "intent"], "Invalid enum value"⟩] := by
      simp [parseIntent, if_neg hs]
    exact ⟨_, heq, ⟨[.field "intent"], "Invalid enum value"⟩, by simp, rfl⟩
  | null => exact ⟨_, rfl, ⟨[.field "intent"], "Expected string"⟩, by simp, rfl⟩
  | bool b => exact ⟨_, rfl, ⟨[.field "intent"], "Expected string"⟩, by simp, rfl⟩
  | num q => exact ⟨_, rfl, ⟨[.field "intent"], "Expected string"⟩, by simp, rfl⟩
  | arr xs => exact ⟨_, rfl, ⟨[.field "intent"], "Expected string"⟩, by simp, rfl⟩
  | obj gs => exact ⟨_, rfl, ⟨[.field "intent"], "Expected string"⟩, by simp, rfl⟩

/-- A non-integer or out-of-range `maxOutputTokens` fails its parse with an
issue at path `maxOutputTokens`. -/
theorem parseMaxTokens_viol (v : Json)
    (hv : ∀ q, v = .num q → ¬(q.den = 1 ∧ 64 ≤ q ∧ q ≤ 2048)) :
    ∃ L, parseMaxTokens (some v) = .error L ∧
      ∃ ι ∈ L, ι.path = [.field "maxOutputTokens"] := by
  cases v with
  | num q =>
    have hq := hv q rfl
    have hne : maxTokIssues q ≠ [] := by
      intro hnil
      by_cases hd : q.den = 1
      · by_cases h64 : q < 64
        · simp [maxTokIssues, hd, h64] at hnil
        · by_cases h2048 : 2048 < q
          · simp [maxTokIssues, hd, h64, h2048] at hnil
          · exact hq ⟨hd, not_lt.mp h64, not_lt.mp h2048⟩
      · simp [maxTokIssues, hd] at hnil
    obtain ⟨ι, hι⟩ := List.exists_mem_of_ne_nil _ hne
    refine ⟨maxTokIssues q, by simp only [parseMaxTokens]; rw [if_neg hne], ι, hι, ?_⟩
    simp only [maxTokIssues, List.mem_append] at hι
    rcases hι with (h | h) | h
    · rw [mem_ite_nil_left h]
    · rw [mem_ite_nil_right h]
    · rw [mem_ite_nil_right h]
  | null => exact ⟨_, rfl, ⟨[.field "maxOutputTokens"], "Expected number"⟩, by simp, rfl⟩
  | bool b => exact ⟨_, rfl, ⟨[.field "maxOutputTokens"], "Expected number"⟩, by simp, rfl⟩
  | str s => exact ⟨_, rfl, ⟨[.field "maxOutputTokens"], "Expected number"⟩, by simp, rfl⟩
  | arr xs => exact ⟨_, rfl, ⟨[.field "maxOutputTokens"], "Expected number"⟩, by simp, rfl⟩
  | obj gs => exact ⟨_, rfl, ⟨[.field "maxOutputTokens"], "Expected number"⟩, by simp, rfl⟩

/-- An out-of-range `temperature` fails its parse with an issue at path
`temperature`. -/
theorem parseTemperature_viol (v : Json)
    (hv : ∀ q, v = .num q → ¬(0 ≤ q ∧ q ≤ 1)) :
    ∃ L, parseTemperature (some v) = .error L ∧
      ∃ ι ∈ L, ι.path = [.field "temperature"] := by
  cases v with
  | num q =>
    have hq := hv q rfl
    have hne : tempIssues q ≠ [] := by
      intro hnil
      by_cases h0 : q < 0
      · simp [tempIssues, h0] at hnil
      · by_cases h1 : 1 < q
        · simp [tempIssues, h0, h1] at hnil
        · exact hq ⟨not_lt.mp h0, not_lt.mp h1⟩
    obtain ⟨ι, hι⟩ := List.exists_mem_of_ne_nil _ hne
    refine ⟨tempIssues q, by simp only [parseTemperature]; rw [if_neg hne], ι, hι, ?_⟩
    simp only [tempIssues, List.mem_append] at hι
    rcases hι with h | h
    · rw [mem_ite_nil_right h]
    · rw [mem_ite_nil_right h]
  | null => exact ⟨_, rfl, ⟨[.field "temperature"], "Expected number"⟩, by simp, rfl⟩
  | bool b => exact ⟨_, rfl, ⟨[.field "temperature"], "Expected number"⟩, by simp, rfl⟩
  | str s => exact ⟨_, rfl, ⟨[.field "temperature"], "Expected number"⟩, by simp, rfl⟩
  | arr xs => exact ⟨_, rfl, ⟨[.field "temperature"], "Expected number"⟩, by simp, rfl⟩
  | obj gs => exact ⟨_, rfl, ⟨[.field "temperature"], "Expected number"⟩, by simp, rfl⟩

/-- When any `AskSchema` field fails, the combined parse fails with the
concatenation of every field's issues. -/
theorem combineAsk_error_of (rm : Except (List Issue) (List MsgIn))
    (ri : Except (List Issue) String) (rp : Except (List Issue) (Option Profile))
    (rx rt : Except (List Issue) (Option Rat))
    (h : errsOf rm ≠ [] ∨ errsOf ri ≠ [] ∨ errsOf rp ≠ [] ∨
      errsOf rx ≠ [] ∨ errsOf rt ≠ []) :
    combineAsk rm ri rp rx rt =
      .error (errsOf rm ++ errsOf ri ++ errsOf rp ++ errsOf rx ++ errsOf rt) := by
  cases rm <;> cases ri <;> cases rp <;> cases rx <;> cases rt <;>
    first
      | rfl
      | simp [errsOf] at h

/-- C1: with a credential configured, any object body violating the schema
in one of the named ways is rejected with HTTP 400, error `BAD_REQUEST`,
a report containing an issue for EVERY violated field, and no provider
call. -/
theorem bad_request_reports_all_fields (cfg : Config) (fs : List (String × Json))
    (provider : Except GError String) (hkey : cfg.apiKey ≠ "")
    (hviol : violMessages (.obj fs) ∨ (∃ k, contentZeroAt (.obj fs) k) ∨
      violIntent (.obj fs) ∨ violMaxTok (.obj fs) ∨ violTemp (.obj fs)) :
    ∃ issues, parseAsk (.obj fs) = .error issues ∧
      postChat cfg (.obj fs) provider =
        (⟨400, .obj [("error", .str "BAD_REQUEST"), ("details", issuesJson issues)]⟩,
          false) ∧
      (violMessages (.obj fs) → ∃ ι ∈ issues, ι.path = [.field "messages"]) ∧
      (∀ k, contentZeroAt (.obj fs) k →
        ∃ ι ∈ issues, ι.path = [.field "messages", .index k, .field "content"]) ∧
      (violIntent (.obj fs) → ∃ ι ∈ issues, ι.path = [.field "intent"]) ∧
      (violMaxTok (.obj fs) → ∃ ι ∈ issues, ι.path = [.field "maxOutputTokens"]) ∧
      (violTemp (.obj fs) → ∃ ι ∈ issues, ι.path = [.field "temperature"]) := by
  have hne : errsOf (parseMessages (lookupField fs "messages")) ≠ [] ∨
      errsOf (parseIntent (lookupField fs "intent")) ≠ [] ∨
      errsOf (parseProfile (lookupField fs "profile")) ≠ [] ∨
      errsOf (parseMaxTokens (lookupField fs "maxOutputTokens")) ≠ [] ∨
      errsOf (parseTemperature (lookupField fs "temperature")) ≠ [] := by
    rcases hviol with h | ⟨k, h⟩ | h | h | h
    · obtain ⟨L, hL, ι, hι, _⟩ := parseMessages_viol fs h
      exact Or.inl (by rw [hL]; exact List.ne_nil_of_mem hι)
    · obtain ⟨L, hL, ι, hι, _⟩ := parseMessages_viol_content fs k h
      exact Or.inl (by rw [hL]; exact List.ne_nil_of_mem hι)
    · obtain ⟨v, hvv, hv⟩ := h
      simp only [getField] at hvv
      obtain ⟨L, hL, ι, hι, _⟩ := parseIntent_viol v hv
      exact Or.inr (Or.inl (by rw [hvv, hL]; exact List.ne_nil_of_mem hι))
    · obtain ⟨v, hvv, hv⟩ := h
      simp only [getField] at hvv
      obtain ⟨L, hL, ι, hι, _⟩ := parseMaxTokens_viol v hv
      exact Or.inr (Or.inr (Or.inr (Or.inl
        (by rw [hvv, hL]; exact List.ne_nil_of_mem hι))))
    · obtain ⟨v, hvv, hv⟩ := h
      simp only [getField] at hvv
      obtain ⟨L, hL, ι, hι, _⟩ := parseTemperature_viol v hv
      exact Or.inr (Or.inr (Or.inr (Or.inr
        (by rw [hvv, hL]; exact List.ne_nil_of_mem hι))))
  have hps : parseAsk (.obj fs) =
      .error (errsOf (parseMessages (lookupField fs "messages")) ++
        errsOf (parseIntent (lookupField fs "intent")) ++
        errsOf (parseProfile (lookupField fs "profile")) ++
        errsOf (parseMaxTokens (lookupField fs "maxOutputTokens")) ++
        errsOf (parseTemperature (lookupField fs "temperature"))) := by
    show combineAsk _ _ _ _ _ = _
    exact combineAsk_error_of _ _ _ _ _ hne
  refine ⟨_, hps, ?_, ?_, ?_, ?_, ?_, ?_⟩
  · simp only [postChat]
    rw [if_neg hkey, hps]
  · intro h
    obtain ⟨L, hL, ι, hι, hpath⟩ := parseMessages_viol fs h
    refine ⟨ι, ?_, hpath⟩
    have h1 : ι ∈ errsOf (parseMessages (lookupField fs "messages")) := by
      rw [hL]; exact hι
    exact List.mem_append_left _ (List.mem_append_left _ (List.mem_append_left _
      (List.mem_append_left _ h1)))
  · intro k h
    obtain ⟨L, hL, ι, hι, hpath⟩ := parseMessages_viol_content fs k h
    refine ⟨ι, ?_, hpath⟩
    have h1 : ι ∈ errsOf (parseMessages (lookupField fs "messages")) := by
      rw [hL]; exact hι
    exact List.mem_append_left _ (List.mem_append_left _ (List.mem_append_left _
      (List.mem_append_left _ h1)))
  · intro h
    obtain ⟨v, hvv, hv⟩ := h
    simp only [getField] at hvv
    obtain ⟨L, hL, ι, hι, hpath⟩ := parseIntent_viol v hv
    refine ⟨ι, ?_, hpath⟩
    have h1 : ι ∈ errsOf (parseIntent (lookupField fs "intent")) := by
      rw [hvv, hL]; exact hι
    exact List.mem_append_left _ (List.mem_append_left _ (List.mem_append_left _
      (List.mem_append_right _ h1)))
  · intro h
    obtain ⟨v, hvv, hv⟩ := h
    simp only [getField] at hvv
    obtain ⟨L, hL, ι, hι, hpath⟩ := parseMaxTokens_viol v hv
    refine ⟨ι, ?_, hpath⟩
    have h1 : ι ∈ errsOf (parseMaxTokens (lookupField fs "maxOutputTokens")) := by
      rw [hvv, hL]; exact hι
    exact List.mem_append_left _ (List.mem_append_right _ h1)
  · intro h
    obtain ⟨v, hvv, hv⟩ := h
    simp only [getField] at hvv
    obtain ⟨L, hL, ι, hι, hpath⟩ := parseTemperature_viol v hv
    refine ⟨ι, ?_, hpath⟩
    have h1 : ι ∈ errsOf (parseTemperature (lookupField fs "temperature")) := by
      rw [hvv, hL]; exact hι
    exact List.mem_append_right _ h1

/-- C1 witness: a body with no `messages` and an out-of-enum `intent` is
rejected with 400, no provider call, and issues for both fields. -/
theorem bad_request_reports_all_fields_witness :
    ∃ issues, parseAsk (Json.obj [("intent", Json.str "selfie")]) = .error issues ∧
      postChat ⟨"test-key", "gemini-1.5-flash"⟩ (Json.obj [("intent", Json.str "selfie")])
          (.ok "hi") =
        (⟨400, .obj [("error", .str "BAD_REQUEST"), ("details", issuesJson issues)]⟩,
          false) ∧
      (∃ ι ∈ issues, ι.path = [PathElem.field "messages"]) ∧
      (∃ ι ∈ issues, ι.path = [PathElem.field "intent"]) := by
  obtain ⟨issues, h1, h2, h3, _, h5, _, _⟩ :=
    bad_request_reports_all_fields ⟨"test-key", "gemini-1.5-flash"⟩
      [("intent", Json.str "selfie")] (.ok "hi") (by decide) (Or.inl (Or.inl rfl))
  refine ⟨issues, h1, h2, h3 (Or.inl rfl), h5 ⟨.str "selfie", rfl, ?_⟩⟩
  intro s hs
  injection hs with hs
  subst hs
  decide

/-- C4: a validated request whose final message is empty or whitespace-only
gets the 200 canned greeting and the provider is never called. -/
theorem greeting_fast_path (cfg : Config) (j : Json) (ask : Ask)
    (provider : Except GError String) (hkey : cfg.apiKey ≠ "")
    (hparse : parseAsk j = .ok ask)
    (hws : strTrim (lastUserText ask.messages) = "") :
    postChat cfg j provider = (⟨200, .obj [("answer", .str greetingText)]⟩, false) := by
  simp only [postChat]
  rw [if_neg hkey, hparse]
  simp [hws]

/-- C4 witness: a single whitespace-only message triggers the greeting
fast path without a provider call. -/
theorem greeting_fast_path_witness :
    postChat ⟨"test-key", "gemini-1.5-flash"⟩
        (Json.obj [("messages", Json.arr [Json.obj [("content", Json.str " ")]])])
        (.ok "unused") =
      (⟨200, Json.obj [("answer", Json.str greetingText)]⟩, false) :=
  greeting_fast_path _ _ ⟨[⟨"user", " "⟩], "news", none, none, none⟩ _
    (by decide) (by rfl) (by rfl)

/-- C5: with no credential configured, every request body gets the 503
`GEMINI_API_KEY_MISSING` response, before validation and without any
provider call. -/
theorem missing_key_503 (cfg : Config) (j : Json) (provider : Except GError String)
    (hkey : cfg.apiKey = "") :
    postChat cfg j provider =
      (⟨503, .obj [("error", .str "GEMINI_API_KEY_MISSING"),
        ("message", .str "Server AI belum dikonfigurasi. Hubungi admin.")]⟩, false) := by
  simp only [postChat]
  rw [if_pos hkey]

/-- C5 witness: even a body that is not an object gets the 503 response when
the key is unset. -/
theorem missing_key_503_witness :
    postChat ⟨"", "gemini-1.5-flash"⟩ (Json.str "not an object") (.ok "x") =
      (⟨503, Json.obj [("error", Json.str "GEMINI_API_KEY_MISSING"),
        ("message", Json.str "Server AI belum dikonfigurasi. Hubungi admin.")]⟩,
        false) :=
  missing_key_503 _ _ _ rfl

/-- C6: when the provider call yields text that trims to empty, the handler
responds 502 `EMPTY_RESPONSE`, never a 200. -/
theorem empty_response_502 (cfg : Config) (j : Json) (ask : Ask) (text : String)
    (hkey : cfg.apiKey ≠ "") (hparse : parseAsk j = .ok ask)
    (hlast : strTrim (lastUserText ask.messages) ≠ "")
    (hempty : strTrim text = "") :
    postChat cfg j (.ok text) =
      (⟨502, .obj [("error", .str "EMPTY_RESPONSE"),
        ("message", .str "AI tidak mengembalikan teks.")]⟩, true) := by
  simp only [postChat]
  rw [if_neg hkey, hparse]
  simp [hlast, hempty]

/-- C6 witness: a whitespace-only provider reply gives the 502
`EMPTY_RESPONSE` response on the minimal request. -/
theorem empty_response_502_witness :
    postChat ⟨"test-key", "gemini-1.5-flash"⟩ minimalBody (.ok "   ") =
      (⟨502, Json.obj [("error", Json.str "EMPTY_RESPONSE"),
        ("message", Json.str "AI tidak mengembalikan teks.")]⟩, true) :=
  empty_response_502 _ _ minimalAsk _ (by decide) (by rfl) (by decide) (by rfl)

/-- C7: when the provider call yields text with substance, the handler
responds 200 with exactly the trimmed text as `answer`. -/
theorem success_trimmed_answer (cfg : Config) (j : Json) (ask : Ask) (text : String)
    (hkey : cfg.apiKey ≠ "") (hparse : parseAsk j = .ok ask)
    (hlast : strTrim (lastUserText ask.messages) ≠ "")
    (hne : strTrim text ≠ "") :
    postChat cfg j (.ok text) =
      (⟨200, .obj [("answer", .str (strTrim text))]⟩, true) := by
  simp only [postChat]
  rw [if_neg hkey, hparse]
  simp [hlast, hne]

/-- C7 witness: the round trip of the claim — minimal request, provider
stubbed to `"hi there"`, response exactly `{ answer: "hi there" }`. -/
theorem success_trimmed_answer_witness :
    postChat ⟨"test-key", "gemini-1.5-flash"⟩ minimalBody (.ok "hi there") =
      (⟨200, Json.obj [("answer", Json.str "hi there")]⟩, true) := by
  have h := success_trimmed_answer ⟨"test-key", "gemini-1.5-flash"⟩ minimalBody
    minimalAsk "hi there" (by decide) (by rfl) (by decide) (by decide)
  exact h

/-- C8 counterexample: an error whose `code` field is present (the empty
string) but falsy. The response takes `status` instead, while the claim's
wording ("status only when code is absent") demands the present `code`. -/
theorem ai_error_code_counterexample :
    postChat ⟨"test-key", "gemini-1.5-flash"⟩ minimalBody
        (.error ⟨some (.str ""), some (.num 429), some "quota", none, none⟩) =
      (⟨502, Json.obj (aiErrorFields
        ⟨some (.str ""), some (.num 429), some "quota", none, none⟩)⟩, true) ∧
    lookupField (aiErrorFields
        ⟨some (.str ""), some (.num 429), some "quota", none, none⟩) "code" =
      some (.num 429) ∧
    claimCodeVal ⟨some (.str ""), some (.num 429), some "quota", none, none⟩ =
      some (.str "") ∧
    lookupField (aiErrorFields
        ⟨some (.str ""), some (.num 429), some "quota", none, none⟩) "code" ≠
      claimCodeVal ⟨some (.str ""), some (.num 429), some "quota", none, none⟩ := by
  refine ⟨rfl, rfl, rfl, ?_⟩
  intro h
  rw [show lookupField (aiErrorFields
        ⟨some (.str ""), some (.num 429), some "quota", none, none⟩) "code" =
      some (.num 429) from rfl,
    show claimCodeVal ⟨some (.str ""), some (.num 429), some "quota", none, none⟩ =
      some (.str "") from rfl] at h
  injection h with h'
  exact Json.noConfusion h'

/-- C8 (amended): a provider exception yields a 502 whose body has only the
fields `error` (`"AI_ERROR"`), an optional `code` (the error's `code` when
truthy, otherwise its `status`), and `message` (the error's message or the
fixed fallback) — never a `stack` field. -/
theorem ai_error_response (cfg : Config) (j : Json) (ask : Ask) (e : GError)
    (hkey : cfg.apiKey ≠ "") (hparse : parseAsk j = .ok ask)
    (hlast : strTrim (lastUserText ask.messages) ≠ "") :
    postChat cfg j (.error e) = (⟨502, .obj (aiErrorFields e)⟩, true) ∧
    ((aiErrorFields e).map Prod.fst = ["error", "code", "message"] ∨
      (aiErrorFields e).map Prod.fst = ["error", "message"]) ∧
    lookupField (aiErrorFields e) "error" = some (.str "AI_ERROR") ∧
    lookupField (aiErrorFields e) "code" = codeVal e ∧
    lookupField (aiErrorFields e) "message" =
      some (.str (jsOrStr e.message "Gagal meminta jawaban dari AI.")) ∧
    lookupField (aiErrorFields e) "stack" = none := by
  refine ⟨?_, ?_, ?_, ?_, ?_, ?_⟩
  · simp only [postChat]
    rw [if_neg hkey, hparse]
    simp [hlast]
  · cases hc : codeVal e
    · exact Or.inr (by simp [aiErrorFields, hc])
    · exact Or.inl (by simp [aiErrorFields, hc])
  · cases hc : codeVal e <;> simp [aiErrorFields, hc, lookupField]
  · cases hc : codeVal e <;> simp [aiErrorFields, hc, lookupField]
  · cases hc : codeVal e <;> simp [aiErrorFields, hc, lookupField]
  · cases hc : codeVal e <;> simp [aiErrorFields, hc, lookupField]

/-- C8 witness: a plain thrown error with only a message maps to the
502 `AI_ERROR` body with exactly the fields `error` and `message`. -/
theorem ai_error_response_witness :
    postChat ⟨"test-key", "gemini-1.5-flash"⟩ minimalBody
        (.error ⟨none, none, some "boom", none, none⟩) =
      (⟨502, Json.obj (aiErrorFields ⟨none, none, some "boom", none, none⟩)⟩, true) ∧
    ((aiErrorFields ⟨none, none, some "boom", none, none⟩).map Prod.fst =
        ["error", "code", "message"] ∨
      (aiErrorFields ⟨none, none, some "boom", none, none⟩).map Prod.fst =
        ["error", "message"]) ∧
    lookupField (aiErrorFields ⟨none, none, some "boom", none, none⟩) "error" =
      some (.str "AI_ERROR") ∧
    lookupField (aiErrorFields ⟨none, none, some "boom", none, none⟩) "code" =
      codeVal ⟨none, none, some "boom", none, none⟩ ∧
    lookupField (aiErrorFields ⟨none, none, some "boom", none, none⟩) "message" =
      some (.str (jsOrStr (some "boom") "Gagal meminta jawaban dari AI.")) ∧
    lookupField (aiErrorFields ⟨none, none, some "boom", none, none⟩) "stack" = none :=
  ai_error_response _ _ minimalAsk _ (by decide) (by rfl) (by decide)

/-- C10: a whitespace-only content passes validation (`min(1)` counts
whitespace), with the role defaulting to `"user"`, and as the last message
it sends the handler down the canned-greeting fast path with no provider
call. -/
theorem whitespace_content_validates :
    parseAsk (.obj [("messages", .arr [.obj [("content", .str " ")]])]) =
      .ok ⟨[⟨"user", " "⟩], "news", none, none, none⟩ ∧
    postChat ⟨"test-key", "gemini-1.5-flash"⟩
        (.obj [("messages", .arr [.obj [("content", .str " ")]])]) (.ok "ignored") =
      (⟨200, .obj [("answer", .str greetingText)]⟩, false) :=
  ⟨rfl, rfl⟩
